import Mathlib

/-!
Shallow embedding of the poker hand classifier and scorer from
src/PokerStruct-Edited.cpp, together with theorems checking the
specification's claims about it.

Cards carry their numeric enum values: suits are 1..4 and ranks 2..14
(0 is the Invalid value of both C++ enums).  A hand is the C++
std::vector<Card>, modelled as a list; Cards[i] is modelled by list
indexing with the default (invalid) card out of range, which agrees with
the C++ program on every hand of length at least 5 (all loops touch
positions 0..4 only).  Scores are integers: the C++ double arithmetic is
exact at these magnitudes (all values are integers far below 2^53).
-/

/-- A playing card, as in the C++ Card struct: Suit and Rank hold the
numeric values of the CardSuit and CardRank enums. -/
structure Card where
  Suit : Nat
  Rank : Nat
deriving DecidableEq, Repr

/-- The C++ Card(rank, suit) constructor (note the argument order). -/
def mkCard (rank suit : Nat) : Card := { Suit := suit, Rank := rank }

/-- A default-constructed (invalid) card: both enum fields are 0. -/
def defaultCard : Card := { Suit := 0, Rank := 0 }

/-- The HandRank enum of the source. -/
inductive HandRank where
  | StraightFlush
  | Quad
  | FullHouse
  | Flush
  | Straight
  | Set
  | TwoPair
  | Pair
  | HighCard
deriving DecidableEq, Repr

/-- The numeric value of each HandRank enum constant
(StraightFlush = 9 down to HighCard = 1). -/
def HandRank.value : HandRank → Nat
  | .StraightFlush => 9
  | .Quad => 8
  | .FullHouse => 7
  | .Flush => 6
  | .Straight => 5
  | .Set => 4
  | .TwoPair => 3
  | .Pair => 2
  | .HighCard => 1

/-- Cards[i].Rank, the rank read by the C++ indexing expression. -/
def rankAt (h : List Card) (i : Nat) : Nat := (h.getD i defaultCard).Rank

/-- Cards[i].Suit, the suit read by the C++ indexing expression. -/
def suitAt (h : List Card) (i : Nat) : Nat := (h.getD i defaultCard).Suit

/-- The pairCount computed by the loop of Hand::IsPair: how many of the
four adjacent positions i = 0..3 satisfy Cards[i].Rank == Cards[i+1].Rank. -/
def pairCount (h : List Card) : Nat :=
  (if rankAt h 0 = rankAt h 1 then 1 else 0) +
  (if rankAt h 1 = rankAt h 2 then 1 else 0) +
  (if rankAt h 2 = rankAt h 3 then 1 else 0) +
  (if rankAt h 3 = rankAt h 4 then 1 else 0)

/-- Hand::IsPair: the adjacent-equal-rank count is exactly 1. -/
def IsPair (h : List Card) : Bool := decide (pairCount h = 1)

/-- The count computed by the loop of Hand::IsSet: how many of the three
windows i = 0..2 have Cards[i], Cards[i+1], Cards[i+2] of equal rank. -/
def setCount (h : List Card) : Nat :=
  (if rankAt h 0 = rankAt h 1 ∧ rankAt h 1 = rankAt h 2 then 1 else 0) +
  (if rankAt h 1 = rankAt h 2 ∧ rankAt h 2 = rankAt h 3 then 1 else 0) +
  (if rankAt h 2 = rankAt h 3 ∧ rankAt h 3 = rankAt h 4 then 1 else 0)

/-- Hand::IsSet: the equal-rank-window count is exactly 1. -/
def IsSet (h : List Card) : Bool := decide (setCount h = 1)

/-- The loop of Hand::IsTwoPair: scan i = 0..3; on a match Cards[i].Rank ==
Cards[i+1].Rank increment the count and skip the next position (the C++
body does ++i and the for-step another ++i).  The loop runs at most four
iterations, so fuel 4 reproduces it exactly; fuel decreases each step. -/
def twoPairGo (h : List Card) : Nat → Nat → Nat → Nat
  | 0, _, count => count
  | fuel + 1, i, count =>
    if i < 4 then
      if rankAt h i = rankAt h (i + 1) then twoPairGo h fuel (i + 2) (count + 1)
      else twoPairGo h fuel (i + 1) count
    else count

/-- Hand::IsTwoPair: the skipping scan finds exactly two disjoint
adjacent equal-rank pairs. -/
def IsTwoPair (h : List Card) : Bool := decide (twoPairGo h 4 0 0 = 2)

/-- Hand::IsStraight: each adjacent position satisfies
Cards[i].Rank + 1 == Cards[i+1].Rank (the loop returns false at the
first failure, which is the same as this conjunction). -/
def IsStraight (h : List Card) : Bool :=
  decide (rankAt h 0 + 1 = rankAt h 1 ∧ rankAt h 1 + 1 = rankAt h 2 ∧
    rankAt h 2 + 1 = rankAt h 3 ∧ rankAt h 3 + 1 = rankAt h 4)

/-- Hand::IsFlush: all adjacent positions have equal suits. -/
def IsFlush (h : List Card) : Bool :=
  decide (suitAt h 0 = suitAt h 1 ∧ suitAt h 1 = suitAt h 2 ∧
    suitAt h 2 = suitAt h 3 ∧ suitAt h 3 = suitAt h 4)

/-- Hand::IsFullHouse: IsSet() && IsTwoPair(). -/
def IsFullHouse (h : List Card) : Bool := IsSet h && IsTwoPair h

/-- Hand::IsQuad: Cards[0].Rank == Cards[3].Rank or
Cards[1].Rank == Cards[4].Rank. -/
def IsQuad (h : List Card) : Bool :=
  decide (rankAt h 0 = rankAt h 3 ∨ rankAt h 1 = rankAt h 4)

/-- Hand::IsStraightFlush: IsStraight() && IsFlush(). -/
def IsStraightFlush (h : List Card) : Bool := IsStraight h && IsFlush h

/-- Hand::EvaluateHand, branch for branch.  Note two peculiarities kept
from the source: the FullHouse branch adds the negation of
Cards[4].Rank (the source line reads "+ -" across a line break), and the
Straight branch adds only Cards[4].Rank. -/
def EvaluateHand (h : List Card) : Int :=
  if IsStraightFlush h then
    9 * 14 ^ 5 + (rankAt h 4 : Int) * 14 ^ 4 + (rankAt h 3 : Int) * 14 ^ 3 +
      (rankAt h 2 : Int) * 14 ^ 2 + (rankAt h 1 : Int) * 14 + (rankAt h 0 : Int)
  else if IsQuad h then
    8 * 14 ^ 5 + (rankAt h 3 : Int) * 14 ^ 4 + (rankAt h 4 : Int)
  else if IsFullHouse h then
    7 * 14 ^ 5 + (rankAt h 2 : Int) * 14 ^ 4 + -(rankAt h 4 : Int)
  else if IsFlush h then
    6 * 14 ^ 5 + (rankAt h 4 : Int) * 14 ^ 4 + (rankAt h 3 : Int) * 14 ^ 3 +
      (rankAt h 2 : Int) * 14 ^ 2 + (rankAt h 1 : Int) * 14 + (rankAt h 0 : Int)
  else if IsStraight h then
    5 * 14 ^ 5 + (rankAt h 4 : Int)
  else if IsSet h then
    4 * 14 ^ 5 + (rankAt h 2 : Int) * 14 ^ 4 + (rankAt h 4 : Int)
  else if IsTwoPair h then
    if rankAt h 0 ≠ rankAt h 1 then
      3 * 14 ^ 5 + (rankAt h 4 : Int) * 14 ^ 4 + (rankAt h 2 : Int) * 14 ^ 3 +
        (rankAt h 1 : Int)
    else if rankAt h 1 ≠ rankAt h 2 then
      3 * 14 ^ 5 + (rankAt h 4 : Int) * 14 ^ 4 + (rankAt h 1 : Int) * 14 ^ 3 +
        (rankAt h 2 : Int)
    else
      3 * 14 ^ 5 + (rankAt h 3 : Int) * 14 ^ 4 + (rankAt h 1 : Int) * 14 ^ 3 +
        (rankAt h 4 : Int)
  else if IsPair h then
    if rankAt h 0 = rankAt h 1 then
      2 * 14 ^ 5 + (rankAt h 0 : Int) * 14 ^ 4 + (rankAt h 4 : Int) * 14 ^ 3 +
        (rankAt h 3 : Int) * 14 ^ 2 + (rankAt h 2 : Int) * 14
    else if rankAt h 1 = rankAt h 2 then
      2 * 14 ^ 5 + (rankAt h 1 : Int) * 14 ^ 4 + (rankAt h 4 : Int) * 14 ^ 3 +
        (rankAt h 3 : Int) * 14 ^ 2 + (rankAt h 0 : Int) * 14
    else if rankAt h 2 = rankAt h 3 then
      2 * 14 ^ 5 + (rankAt h 3 : Int) * 14 ^ 4 + (rankAt h 4 : Int) * 14 ^ 3 +
        (rankAt h 1 : Int) * 14 ^ 2 + (rankAt h 0 : Int) * 14
    else
      2 * 14 ^ 5 + (rankAt h 3 : Int) * 14 ^ 4 + (rankAt h 2 : Int) * 14 ^ 3 +
        (rankAt h 1 : Int) * 14 ^ 2 + (rankAt h 0 : Int) * 14
  else
    1 * 14 ^ 5 + (rankAt h 4 : Int) * 14 ^ 4 + (rankAt h 3 : Int) * 14 ^ 3 +
      (rankAt h 2 : Int) * 14 ^ 2 + (rankAt h 1 : Int) * 14 + (rankAt h 0 : Int)

/-- The category selected by EvaluateHand's if-chain (first predicate to
answer true, in the source's order, wins; HighCard otherwise). -/
def ResolveCategory (h : List Card) : HandRank :=
  if IsStraightFlush h then .StraightFlush
  else if IsQuad h then .Quad
  else if IsFullHouse h then .FullHouse
  else if IsFlush h then .Flush
  else if IsStraight h then .Straight
  else if IsSet h then .Set
  else if IsTwoPair h then .TwoPair
  else if IsPair h then .Pair
  else .HighCard

/-- One step of the insertion sort of Hand::SortHand: insert key into an
already sorted prefix, shifting every card of strictly greater rank one
slot to the right.  The key therefore lands after any equal-rank card,
exactly as the C++ while-loop condition Cards[j].Rank > key.Rank does. -/
def insertCard (key : Card) : List Card → List Card
  | [] => [key]
  | c :: cs => if key.Rank < c.Rank then key :: c :: cs else c :: insertCard key cs

/-- Hand::SortHand: insertion sort over the whole card vector, inserting
Cards[1], Cards[2], ... into the sorted prefix in order. -/
def SortHand (h : List Card) : List Card :=
  h.foldl (fun acc c => insertCard c acc) []

/-- Number of cards of the hand holding a given rank (the rank-count used
to state the claims about pair detection). -/
def countRank (h : List Card) (r : Nat) : Nat :=
  h.countP (fun c => c.Rank = r)

/-- A hand in which exactly one rank appears twice and every other rank
at most once: the rank-multiset signature of a genuine one-pair hand. -/
def OnePairHand (h : List Card) : Prop :=
  ∃ r, countRank h r = 2 ∧ ∀ q, q ≠ r → countRank h q ≤ 1

/-- A sorted 2-3-4-5-6 straight with mixed suits. -/
def straightHand : List Card :=
  [mkCard 2 1, mkCard 3 2, mkCard 4 3, mkCard 5 1, mkCard 6 2]

/-- A sorted three-of-a-kind of Aces with kickers 2 and 3, mixed suits. -/
def aceSetHand : List Card :=
  [mkCard 2 1, mkCard 3 2, mkCard 14 3, mkCard 14 1, mkCard 14 2]

/-- A sorted full house, pair of 2s under a triple of 3s. -/
def fullHouseHand : List Card :=
  [mkCard 2 1, mkCard 2 2, mkCard 3 1, mkCard 3 2, mkCard 3 3]

/-- A sorted full house: triple of 5s with a pair of 7s. -/
def fullHouseLowPair : List Card :=
  [mkCard 5 1, mkCard 5 2, mkCard 5 3, mkCard 7 1, mkCard 7 2]

/-- A sorted full house: the same triple of 5s with a higher pair of 9s. -/
def fullHouseHighPair : List Card :=
  [mkCard 5 1, mkCard 5 2, mkCard 5 3, mkCard 9 1, mkCard 9 2]

/-- A sorted quad of 9s whose kicker 2 sits at position 0. -/
def quadLowKicker : List Card :=
  [mkCard 2 1, mkCard 9 1, mkCard 9 2, mkCard 9 3, mkCard 9 4]

/-- A sorted two-pair hand 2-2-3-3-5: pairs at positions 0-1 and 2-3,
singleton kicker 5 at position 4. -/
def twoPairLayoutC : List Card :=
  [mkCard 2 1, mkCard 2 2, mkCard 3 1, mkCard 3 2, mkCard 5 3]

/-- A sorted two-pair hand 2-2-3-3-A: low pairs, an Ace kicker. -/
def twoPairAceKicker : List Card :=
  [mkCard 2 1, mkCard 2 2, mkCard 3 1, mkCard 3 2, mkCard 14 3]

/-- A sorted two-pair hand 2-Q-Q-K-K: high pairs, a low kicker. -/
def twoPairKings : List Card :=
  [mkCard 2 1, mkCard 12 1, mkCard 12 2, mkCard 13 1, mkCard 13 2]

/-- A sorted 2-3-4-5-6 straight flush in Hearts. -/
def straightFlushHand : List Card :=
  [mkCard 2 1, mkCard 3 1, mkCard 4 1, mkCard 5 1, mkCard 6 1]

/-- A sorted flush in Hearts that is neither a straight nor paired. -/
def flushHand : List Card :=
  [mkCard 2 1, mkCard 5 1, mkCard 7 1, mkCard 9 1, mkCard 11 1]

/-- A sorted high-card hand: distinct non-consecutive ranks, mixed suits. -/
def highCardHand : List Card :=
  [mkCard 2 1, mkCard 5 2, mkCard 7 3, mkCard 9 4, mkCard 11 1]

/-- An unsorted all-Hearts hand, and the same multiset of cards with the
first two positions exchanged. -/
def permHandA : List Card :=
  [mkCard 9 1, mkCard 2 1, mkCard 11 1, mkCard 5 1, mkCard 7 1]

/-- See permHandA. -/
def permHandB : List Card :=
  [mkCard 2 1, mkCard 9 1, mkCard 11 1, mkCard 5 1, mkCard 7 1]

/-- An unsorted hand of six cards. -/
def sixCardHand : List Card :=
  [mkCard 7 1, mkCard 2 2, mkCard 11 3, mkCard 5 4, mkCard 9 1, mkCard 13 2]

@[simp] theorem mkCard_Rank (r s : Nat) : (mkCard r s).Rank = r := rfl

@[simp] theorem mkCard_Suit (r s : Nat) : (mkCard r s).Suit = s := rfl

@[simp] theorem rankAt_zero (c : Card) (t : List Card) : rankAt (c :: t) 0 = c.Rank := rfl

@[simp] theorem rankAt_one (c0 c1 : Card) (t : List Card) :
    rankAt (c0 :: c1 :: t) 1 = c1.Rank := rfl

@[simp] theorem rankAt_two (c0 c1 c2 : Card) (t : List Card) :
    rankAt (c0 :: c1 :: c2 :: t) 2 = c2.Rank := rfl

@[simp] theorem rankAt_three (c0 c1 c2 c3 : Card) (t : List Card) :
    rankAt (c0 :: c1 :: c2 :: c3 :: t) 3 = c3.Rank := rfl

@[simp] theorem rankAt_four (c0 c1 c2 c3 c4 : Card) (t : List Card) :
    rankAt (c0 :: c1 :: c2 :: c3 :: c4 :: t) 4 = c4.Rank := rfl

@[simp] theorem suitAt_zero (c : Card) (t : List Card) : suitAt (c :: t) 0 = c.Suit := rfl

@[simp] theorem suitAt_one (c0 c1 : Card) (t : List Card) :
    suitAt (c0 :: c1 :: t) 1 = c1.Suit := rfl

@[simp] theorem suitAt_two (c0 c1 c2 : Card) (t : List Card) :
    suitAt (c0 :: c1 :: c2 :: t) 2 = c2.Suit := rfl

@[simp] theorem suitAt_three (c0 c1 c2 c3 : Card) (t : List Card) :
    suitAt (c0 :: c1 :: c2 :: c3 :: t) 3 = c3.Suit := rfl

@[simp] theorem suitAt_four (c0 c1 c2 c3 c4 : Card) (t : List Card) :
    suitAt (c0 :: c1 :: c2 :: c3 :: c4 :: t) 4 = c4.Suit := rfl

theorem twoPairCount_eval (c0 c1 c2 c3 c4 : Card) (t : List Card) :
    twoPairGo (c0 :: c1 :: c2 :: c3 :: c4 :: t) 4 0 0 =
      if c0.Rank = c1.Rank then
        (if c2.Rank = c3.Rank then 2 else if c3.Rank = c4.Rank then 2 else 1)
      else if c1.Rank = c2.Rank then
        (if c3.Rank = c4.Rank then 2 else 1)
      else if c2.Rank = c3.Rank then 1
      else if c3.Rank = c4.Rank then 1
      else 0 := by
  by_cases h01 : c0.Rank = c1.Rank <;> by_cases h12 : c1.Rank = c2.Rank <;>
    by_cases h23 : c2.Rank = c3.Rank <;> by_cases h34 : c3.Rank = c4.Rank <;>
    simp [twoPairGo, h01, h12, h23, h34]

theorem resolveCategory_straightflush (h : List Card) :
    ResolveCategory h = HandRank.StraightFlush ↔ IsStraightFlush h = true := by
  unfold ResolveCategory
  split_ifs <;> simp_all

theorem resolveCategory_quad (h : List Card) :
    ResolveCategory h = HandRank.Quad ↔
      IsStraightFlush h = false ∧ IsQuad h = true := by
  unfold ResolveCategory
  split_ifs <;> simp_all

theorem resolveCategory_fullhouse (h : List Card) :
    ResolveCategory h = HandRank.FullHouse ↔
      IsStraightFlush h = false ∧ IsQuad h = false ∧ IsFullHouse h = true := by
  unfold ResolveCategory
  split_ifs <;> simp_all

theorem resolveCategory_flush (h : List Card) :
    ResolveCategory h = HandRank.Flush ↔
      IsStraightFlush h = false ∧ IsQuad h = false ∧ IsFullHouse h = false ∧
        IsFlush h = true := by
  unfold ResolveCategory
  split_ifs <;> simp_all

theorem resolveCategory_straight (h : List Card) :
    ResolveCategory h = HandRank.Straight ↔
      IsStraightFlush h = false ∧ IsQuad h = false ∧ IsFullHouse h = false ∧
        IsFlush h = false ∧ IsStraight h = true := by
  unfold ResolveCategory
  split_ifs <;> simp_all

theorem resolveCategory_set (h : List Card) :
    ResolveCategory h = HandRank.Set ↔
      IsStraightFlush h = false ∧ IsQuad h = false ∧ IsFullHouse h = false ∧
        IsFlush h = false ∧ IsStraight h = false ∧ IsSet h = true := by
  unfold ResolveCategory
  split_ifs <;> simp_all

theorem resolveCategory_twopair (h : List Card) :
    ResolveCategory h = HandRank.TwoPair ↔
      IsStraightFlush h = false ∧ IsQuad h = false ∧ IsFullHouse h = false ∧
        IsFlush h = false ∧ IsStraight h = false ∧ IsSet h = false ∧
        IsTwoPair h = true := by
  unfold ResolveCategory
  split_ifs <;> simp_all

theorem resolveCategory_pair (h : List Card) :
    ResolveCategory h = HandRank.Pair ↔
      IsStraightFlush h = false ∧ IsQuad h = false ∧ IsFullHouse h = false ∧
        IsFlush h = false ∧ IsStraight h = false ∧ IsSet h = false ∧
        IsTwoPair h = false ∧ IsPair h = true := by
  unfold ResolveCategory
  split_ifs <;> simp_all

theorem resolveCategory_highcard (h : List Card) :
    ResolveCategory h = HandRank.HighCard ↔
      IsStraightFlush h = false ∧ IsQuad h = false ∧ IsFullHouse h = false ∧
        IsFlush h = false ∧ IsStraight h = false ∧ IsSet h = false ∧
        IsTwoPair h = false ∧ IsPair h = false := by
  unfold ResolveCategory
  split_ifs <;> simp_all

theorem countRank_eval (c0 c1 c2 c3 c4 : Card) (q : Nat) :
    countRank [c0, c1, c2, c3, c4] q =
      (if c0.Rank = q then 1 else 0) + (if c1.Rank = q then 1 else 0) +
      (if c2.Rank = q then 1 else 0) + (if c3.Rank = q then 1 else 0) +
      (if c4.Rank = q then 1 else 0) := by
  simp only [countRank, List.countP_cons, List.countP_nil, decide_eq_true_eq]
  split_ifs <;> omega

theorem onePair_of_pairCount (c0 c1 c2 c3 c4 : Card)
    (s01 : c0.Rank ≤ c1.Rank) (s12 : c1.Rank ≤ c2.Rank)
    (s23 : c2.Rank ≤ c3.Rank) (s34 : c3.Rank ≤ c4.Rank)
    (hpc : pairCount [c0, c1, c2, c3, c4] = 1) :
    OnePairHand [c0, c1, c2, c3, c4] := by
  by_cases e01 : c0.Rank = c1.Rank <;> by_cases e12 : c1.Rank = c2.Rank <;>
    by_cases e23 : c2.Rank = c3.Rank <;> by_cases e34 : c3.Rank = c4.Rank <;>
    simp only [pairCount, rankAt_zero, rankAt_one, rankAt_two, rankAt_three,
      rankAt_four] at hpc <;>
    simp [e01, e12, e23, e34] at hpc <;>
    first
      | exact ⟨c1.Rank, by rw [countRank_eval]; split_ifs <;> omega,
          fun q hq => by rw [countRank_eval]; split_ifs <;> omega⟩
      | exact ⟨c2.Rank, by rw [countRank_eval]; split_ifs <;> omega,
          fun q hq => by rw [countRank_eval]; split_ifs <;> omega⟩
      | exact ⟨c3.Rank, by rw [countRank_eval]; split_ifs <;> omega,
          fun q hq => by rw [countRank_eval]; split_ifs <;> omega⟩

theorem pairCount_of_onePair (c0 c1 c2 c3 c4 : Card)
    (s01 : c0.Rank ≤ c1.Rank) (s12 : c1.Rank ≤ c2.Rank)
    (s23 : c2.Rank ≤ c3.Rank) (s34 : c3.Rank ≤ c4.Rank)
    (hop : OnePairHand [c0, c1, c2, c3, c4]) :
    pairCount [c0, c1, c2, c3, c4] = 1 := by
  obtain ⟨r, h2, hmax⟩ := hop
  rw [countRank_eval] at h2
  by_cases e01 : c0.Rank = c1.Rank <;> by_cases e12 : c1.Rank = c2.Rank <;>
    by_cases e23 : c2.Rank = c3.Rank <;> by_cases e34 : c3.Rank = c4.Rank <;>
    simp only [pairCount, rankAt_zero, rankAt_one, rankAt_two, rankAt_three,
      rankAt_four] <;>
    simp [e01, e12, e23, e34] <;>
    (split_ifs at h2 <;>
      first
        | omega
        | (have mm := hmax c0.Rank (by omega); rw [countRank_eval] at mm;
            split_ifs at mm <;> omega)
        | (have mm := hmax c2.Rank (by omega); rw [countRank_eval] at mm;
            split_ifs at mm <;> omega)
        | (have mm := hmax c4.Rank (by omega); rw [countRank_eval] at mm;
            split_ifs at mm <;> omega))

theorem exists_five (l : List Card) (hl : l.length = 5) :
    ∃ c0 c1 c2 c3 c4, l = [c0, c1, c2, c3, c4] := by
  rcases l with _ | ⟨a0, _ | ⟨a1, _ | ⟨a2, _ | ⟨a3, _ | ⟨a4, rest⟩⟩⟩⟩⟩ <;> simp_all

theorem insertCard_perm (c : Card) (l : List Card) : (insertCard c l).Perm (c :: l) := by
  induction l with
  | nil => exact List.Perm.refl _
  | cons x xs ih =>
    by_cases hc : c.Rank < x.Rank
    · simp [insertCard, hc]
    · simp only [insertCard, if_neg hc]
      exact (ih.cons x).trans (List.Perm.swap c x xs)

theorem sortHand_go_perm (l acc : List Card) :
    (l.foldl (fun a c => insertCard c a) acc).Perm (acc ++ l) := by
  induction l generalizing acc with
  | nil => simp
  | cons x xs ih =>
    simp only [List.foldl_cons]
    exact ((ih (insertCard x acc)).trans
      (((insertCard_perm x acc).append_right xs).trans List.perm_middle.symm))

theorem sortHand_perm (l : List Card) : (SortHand l).Perm l := by
  simpa using sortHand_go_perm l []

theorem insertCard_sorted (c : Card) (l : List Card)
    (hl : List.Sorted (fun p q : Card => p.Rank ≤ q.Rank) l) :
    List.Sorted (fun p q : Card => p.Rank ≤ q.Rank) (insertCard c l) := by
  induction l with
  | nil => simp [insertCard]
  | cons x xs ih =>
    rw [List.sorted_cons] at hl
    by_cases hc : c.Rank < x.Rank
    · simp only [insertCard, if_pos hc]
      rw [List.sorted_cons]
      refine ⟨fun b hb => ?_, List.sorted_cons.2 hl⟩
      rcases List.mem_cons.1 hb with rfl | hb
      · exact hc.le
      · exact hc.le.trans (hl.1 b hb)
    · simp only [insertCard, if_neg hc]
      rw [List.sorted_cons]
      refine ⟨fun b hb => ?_, ih hl.2⟩
      rcases List.mem_cons.1 ((insertCard_perm c xs).mem_iff.1 hb) with rfl | hb
      · exact Nat.le_of_not_lt hc
      · exact hl.1 b hb

theorem sortHand_go_sorted (l acc : List Card)
    (hacc : List.Sorted (fun p q : Card => p.Rank ≤ q.Rank) acc) :
    List.Sorted (fun p q : Card => p.Rank ≤ q.Rank)
      (l.foldl (fun a c => insertCard c a) acc) := by
  induction l generalizing acc with
  | nil => exact hacc
  | cons x xs ih => exact ih (insertCard x acc) (insertCard_sorted x acc hacc)

theorem sortHand_sorted (l : List Card) :
    List.Sorted (fun p q : Card => p.Rank ≤ q.Rank) (SortHand l) :=
  sortHand_go_sorted l [] (by simp)

theorem sortHand_map_rank_eq (l1 l2 : List Card) (hp : l1.Perm l2) :
    (SortHand l1).map Card.Rank = (SortHand l2).map Card.Rank := by
  have hs1 : List.Sorted (· ≤ ·) ((SortHand l1).map Card.Rank) :=
    List.pairwise_map.2 (sortHand_sorted l1)
  have hs2 : List.Sorted (· ≤ ·) ((SortHand l2).map Card.Rank) :=
    List.pairwise_map.2 (sortHand_sorted l2)
  exact List.eq_of_perm_of_sorted
    (((sortHand_perm l1).trans (hp.trans (sortHand_perm l2).symm)).map Card.Rank) hs1 hs2

theorem rankAt_eq_map (h : List Card) (i : Nat) :
    rankAt h i = (h.map Card.Rank).getD i 0 := by
  induction h generalizing i with
  | nil => rfl
  | cons c t ih =>
    cases i with
    | zero => rfl
    | succ j => exact ih j

theorem isFlush_exists_suit (c0 c1 c2 c3 c4 : Card) :
    IsFlush [c0, c1, c2, c3, c4] = true ↔
      ∃ s, ∀ c ∈ [c0, c1, c2, c3, c4], c.Suit = s := by
  constructor
  · intro hf
    simp only [IsFlush, decide_eq_true_eq, suitAt_zero, suitAt_one, suitAt_two,
      suitAt_three, suitAt_four] at hf
    refine ⟨c0.Suit, fun c hc => ?_⟩
    obtain ⟨h1, h2, h3, h4⟩ := hf
    simp only [List.mem_cons, List.not_mem_nil, or_false] at hc
    rcases hc with rfl | rfl | rfl | rfl | rfl <;> omega
  · rintro ⟨s, hs⟩
    have h0 := hs c0 (by simp)
    have h1 := hs c1 (by simp)
    have h2 := hs c2 (by simp)
    have h3 := hs c3 (by simp)
    have h4 := hs c4 (by simp)
    simp only [IsFlush, decide_eq_true_eq, suitAt_zero, suitAt_one, suitAt_two,
      suitAt_three, suitAt_four]
    omega

theorem isFlush_perm (l1 l2 : List Card) (hp : l1.Perm l2) (hl : l1.length = 5) :
    IsFlush l1 = IsFlush l2 := by
  obtain ⟨a0, a1, a2, a3, a4, rfl⟩ := exists_five l1 hl
  obtain ⟨b0, b1, b2, b3, b4, rfl⟩ := exists_five l2 (hp.length_eq ▸ hl)
  have h12 : IsFlush [a0, a1, a2, a3, a4] = true ↔ IsFlush [b0, b1, b2, b3, b4] = true := by
    rw [isFlush_exists_suit, isFlush_exists_suit]
    constructor
    · rintro ⟨s, hs⟩
      exact ⟨s, fun c hc => hs c (hp.mem_iff.2 hc)⟩
    · rintro ⟨s, hs⟩
      exact ⟨s, fun c hc => hs c (hp.mem_iff.1 hc)⟩
  cases hA : IsFlush [a0, a1, a2, a3, a4]
  · cases hB : IsFlush [b0, b1, b2, b3, b4]
    · rfl
    · exact absurd (h12.2 hB) (by simp [hA])
  · exact (h12.1 hA).symm

theorem eval_congr (h1 h2 : List Card)
    (hr : h1.map Card.Rank = h2.map Card.Rank) (hf : IsFlush h1 = IsFlush h2) :
    ResolveCategory h1 = ResolveCategory h2 ∧ EvaluateHand h1 = EvaluateHand h2 := by
  have hrk : ∀ i, rankAt h1 i = rankAt h2 i := fun i => by
    rw [rankAt_eq_map, rankAt_eq_map, hr]
  have hpc : pairCount h1 = pairCount h2 := by simp only [pairCount, hrk]
  have hp : IsPair h1 = IsPair h2 := by simp only [IsPair, hpc]
  have hsc : setCount h1 = setCount h2 := by simp only [setCount, hrk]
  have hset : IsSet h1 = IsSet h2 := by simp only [IsSet, hsc]
  have htpg : ∀ fuel i count, twoPairGo h1 fuel i count = twoPairGo h2 fuel i count := by
    intro fuel
    induction fuel with
    | zero => intro i count; rfl
    | succ n ih => intro i count; simp only [twoPairGo, hrk, ih]
  have htp : IsTwoPair h1 = IsTwoPair h2 := by simp only [IsTwoPair, htpg]
  have hst : IsStraight h1 = IsStraight h2 := by simp only [IsStraight, hrk]
  have hq : IsQuad h1 = IsQuad h2 := by simp only [IsQuad, hrk]
  have hsf : IsStraightFlush h1 = IsStraightFlush h2 := by
    simp only [IsStraightFlush, hst, hf]
  have hfh : IsFullHouse h1 = IsFullHouse h2 := by simp only [IsFullHouse, hset, htp]
  constructor
  · simp only [ResolveCategory, hsf, hq, hfh, hf, hst, hset, htp, hp]
  · simp only [EvaluateHand, hsf, hq, hfh, hf, hst, hset, htp, hp, hrk]

/-- C3 amended: on both sorted quad layouts EvaluateHand returns
8*14^5 + Cards[3].Rank * 14^4 + Cards[4].Rank.  Cards[3] carries the
quad's rank in both layouts, but Cards[4] is the kicker only when the
quad occupies positions 0-3; when the quad occupies positions 1-4 it is
the quad's rank again and the position-0 kicker is ignored. -/
theorem claim_C3_quad_score_amended (a b s0 s1 s2 s3 s4 : Nat) (_hab : a ≠ b) :
    (ResolveCategory [mkCard a s0, mkCard b s1, mkCard b s2, mkCard b s3, mkCard b s4] =
        HandRank.Quad ∧
      EvaluateHand [mkCard a s0, mkCard b s1, mkCard b s2, mkCard b s3, mkCard b s4] =
        8 * 14 ^ 5 + (b : Int) * 14 ^ 4 + (b : Int)) ∧
    (ResolveCategory [mkCard b s0, mkCard b s1, mkCard b s2, mkCard b s3, mkCard a s4] =
        HandRank.Quad ∧
      EvaluateHand [mkCard b s0, mkCard b s1, mkCard b s2, mkCard b s3, mkCard a s4] =
        8 * 14 ^ 5 + (b : Int) * 14 ^ 4 + (a : Int)) := by
  refine ⟨⟨?_, ?_⟩, ?_, ?_⟩ <;>
    simp [ResolveCategory, EvaluateHand, IsStraightFlush, IsStraight, IsFlush, IsQuad]

/-- C3 witness: the amended quad statement at a = 2, b = 9. -/
theorem claim_C3_witness :
    (2 : Nat) ≠ 9 ∧
    EvaluateHand [mkCard 9 1, mkCard 9 2, mkCard 9 3, mkCard 9 4, mkCard 2 1] =
      8 * 14 ^ 5 + (9 : Int) * 14 ^ 4 + (2 : Int) :=
  ⟨by decide, (claim_C3_quad_score_amended 2 9 1 2 3 4 1 (by decide)).2.2⟩

/-- C1: the claimed category-dominance order fails on the code.  The 2-6
straight resolves as Straight and the ace three-of-a-kind resolves as
Set, Straight is the strictly stronger category by HandRank value, yet
EvaluateHand scores the Set hand higher: the Set branch adds
Cards[2].Rank * 14^4 + Cards[4].Rank = 14 * 14^4 + 14, which overflows
the 14^5-wide band reserved for Straight scores. -/
theorem claim_C1_straight_below_ace_set :
    ResolveCategory straightHand = HandRank.Straight ∧
    ResolveCategory aceSetHand = HandRank.Set ∧
    HandRank.value HandRank.Set < HandRank.value HandRank.Straight ∧
    EvaluateHand straightHand < EvaluateHand aceSetHand := by decide

/-- C2: the FullHouse branch of EvaluateHand subtracts Cards[4].Rank
(the source reads "+ -" across a line break) instead of adding the
pair's rank.  On 2-2-3-3-3 the code returns 7*14^5 + 3*14^4 - 3, not the
claimed 7*14^5 + 3*14^4 + 2; consequently, with the triple of 5s fixed,
the full house holding the higher pair (9s) scores strictly lower than
the one holding the lower pair (7s). -/
theorem claim_C2_fullhouse_score_subtracts :
    ResolveCategory fullHouseHand = HandRank.FullHouse ∧
    EvaluateHand fullHouseHand = 7 * 14 ^ 5 + 3 * 14 ^ 4 - 3 ∧
    EvaluateHand fullHouseHand ≠ 7 * 14 ^ 5 + 3 * 14 ^ 4 + 2 ∧
    ResolveCategory fullHouseLowPair = HandRank.FullHouse ∧
    ResolveCategory fullHouseHighPair = HandRank.FullHouse ∧
    EvaluateHand fullHouseHighPair < EvaluateHand fullHouseLowPair := by decide

/-- C3 counterexample: on the sorted quad 2-9-9-9-9 (quad in positions
1-4, kicker 2 at position 0) the code adds Cards[4].Rank = 9, the quad's
own rank, not the kicker's rank 2 as the claim states. -/
theorem claim_C3_counterexample :
    ResolveCategory quadLowKicker = HandRank.Quad ∧
    EvaluateHand quadLowKicker = 8 * 14 ^ 5 + 9 * 14 ^ 4 + 9 ∧
    EvaluateHand quadLowKicker ≠ 8 * 14 ^ 5 + 9 * 14 ^ 4 + 2 := by decide

/-- C4: the claimed TwoPair encoding holds in only one of the three
sorted layouts.  On 2-2-3-3-5 (pairs at 0-1 and 2-3, kicker 5) the code
returns 3*14^5 + 5*14^4 + 2*14^3 + 3, weighting the kicker highest, not
the claimed 3*14^5 + 3*14^4 + 2*14^3 + 5; consequently the claimed
higher-pair-first ranking fails: the hand with pairs of queens and
kings scores lower than the hand with pairs of 2s and 3s whose kicker is
an Ace. -/
theorem claim_C4_twopair_misscored :
    ResolveCategory twoPairLayoutC = HandRank.TwoPair ∧
    EvaluateHand twoPairLayoutC = 3 * 14 ^ 5 + 5 * 14 ^ 4 + 2 * 14 ^ 3 + 3 ∧
    EvaluateHand twoPairLayoutC ≠ 3 * 14 ^ 5 + 3 * 14 ^ 4 + 2 * 14 ^ 3 + 5 ∧
    ResolveCategory twoPairAceKicker = HandRank.TwoPair ∧
    ResolveCategory twoPairKings = HandRank.TwoPair ∧
    EvaluateHand twoPairKings < EvaluateHand twoPairAceKicker := by decide

/-- C5 counterexample: on the resolved Straight 2-3-4-5-6 the code
returns only 5*14^5 + Cards[4].Rank, discarding the four lower ranks,
not the claimed full base-14 encoding of all five sorted ranks. -/
theorem claim_C5_counterexample :
    ResolveCategory straightHand = HandRank.Straight ∧
    EvaluateHand straightHand = 5 * 14 ^ 5 + 6 ∧
    EvaluateHand straightHand ≠
      5 * 14 ^ 5 + 6 * 14 ^ 4 + 5 * 14 ^ 3 + 4 * 14 ^ 2 + 3 * 14 + 2 := by decide

/-- C5 amended: hands resolved as StraightFlush, Flush or HighCard are
scored with all five sorted ranks encoded in base 14, highest sorted
card at the largest power; a hand resolved as Straight is scored as
5*14^5 + Cards[4].Rank only, the four lower ranks being discarded
(harmless for ordering, since a straight is determined by its top rank,
but not the claimed encoding). -/
theorem claim_C5_kicker_encoding_amended (h : List Card) :
    (ResolveCategory h = HandRank.StraightFlush →
      EvaluateHand h = 9 * 14 ^ 5 + (rankAt h 4 : Int) * 14 ^ 4 +
        (rankAt h 3 : Int) * 14 ^ 3 + (rankAt h 2 : Int) * 14 ^ 2 +
        (rankAt h 1 : Int) * 14 + (rankAt h 0 : Int)) ∧
    (ResolveCategory h = HandRank.Flush →
      EvaluateHand h = 6 * 14 ^ 5 + (rankAt h 4 : Int) * 14 ^ 4 +
        (rankAt h 3 : Int) * 14 ^ 3 + (rankAt h 2 : Int) * 14 ^ 2 +
        (rankAt h 1 : Int) * 14 + (rankAt h 0 : Int)) ∧
    (ResolveCategory h = HandRank.HighCard →
      EvaluateHand h = 1 * 14 ^ 5 + (rankAt h 4 : Int) * 14 ^ 4 +
        (rankAt h 3 : Int) * 14 ^ 3 + (rankAt h 2 : Int) * 14 ^ 2 +
        (rankAt h 1 : Int) * 14 + (rankAt h 0 : Int)) ∧
    (ResolveCategory h = HandRank.Straight →
      EvaluateHand h = 5 * 14 ^ 5 + (rankAt h 4 : Int)) := by
  refine ⟨fun hc => ?_, fun hc => ?_, fun hc => ?_, fun hc => ?_⟩
  · have h1 := (resolveCategory_straightflush h).1 hc
    unfold EvaluateHand
    simp [h1]
  · obtain ⟨h1, h2, h3, h4⟩ := (resolveCategory_flush h).1 hc
    unfold EvaluateHand
    simp [h1, h2, h3, h4]
  · obtain ⟨h1, h2, h3, h4, h5, h6, h7, h8⟩ := (resolveCategory_highcard h).1 hc
    unfold EvaluateHand
    simp [h1, h2, h3, h4, h5, h6, h7, h8]
  · obtain ⟨h1, h2, h3, h4, h5⟩ := (resolveCategory_straight h).1 hc
    unfold EvaluateHand
    simp [h1, h2, h3, h4, h5]

/-- C5 witness: the amended encoding statement applied to a concrete
straight flush, flush, high card and straight. -/
theorem claim_C5_witness :
    EvaluateHand straightFlushHand = 9 * 14 ^ 5 + (6 : Int) * 14 ^ 4 + (5 : Int) * 14 ^ 3 +
      (4 : Int) * 14 ^ 2 + (3 : Int) * 14 + (2 : Int) ∧
    EvaluateHand flushHand = 6 * 14 ^ 5 + (11 : Int) * 14 ^ 4 + (9 : Int) * 14 ^ 3 +
      (7 : Int) * 14 ^ 2 + (5 : Int) * 14 + (2 : Int) ∧
    EvaluateHand highCardHand = 1 * 14 ^ 5 + (11 : Int) * 14 ^ 4 + (9 : Int) * 14 ^ 3 +
      (7 : Int) * 14 ^ 2 + (5 : Int) * 14 + (2 : Int) ∧
    EvaluateHand straightHand = 5 * 14 ^ 5 + (6 : Int) :=
  ⟨(claim_C5_kicker_encoding_amended straightFlushHand).1 (by decide),
   (claim_C5_kicker_encoding_amended flushHand).2.1 (by decide),
   (claim_C5_kicker_encoding_amended highCardHand).2.2.1 (by decide),
   (claim_C5_kicker_encoding_amended straightHand).2.2.2 (by decide)⟩

/-- C6: in each of the four sorted one-pair layouts (pair at positions
0-1, 1-2, 2-3 or 3-4), the hand resolves as Pair and EvaluateHand
returns 2*14^5 plus the pair's rank at weight 14^4 plus the three
remaining kickers in descending rank order at weights 14^3, 14^2, 14.
The suit hypothesis only rules out a flush, which would be resolved
first. -/
theorem claim_C6_pair_layout_scores (a x y z s0 s1 s2 s3 s4 : Nat) :
    (a < x → x < y → y < z → s0 ≠ s1 →
      ResolveCategory [mkCard a s0, mkCard a s1, mkCard x s2, mkCard y s3, mkCard z s4] =
          HandRank.Pair ∧
        EvaluateHand [mkCard a s0, mkCard a s1, mkCard x s2, mkCard y s3, mkCard z s4] =
          2 * 14 ^ 5 + (a : Int) * 14 ^ 4 + (z : Int) * 14 ^ 3 + (y : Int) * 14 ^ 2 +
            (x : Int) * 14) ∧
    (x < a → a < y → y < z → s1 ≠ s2 →
      ResolveCategory [mkCard x s0, mkCard a s1, mkCard a s2, mkCard y s3, mkCard z s4] =
          HandRank.Pair ∧
        EvaluateHand [mkCard x s0, mkCard a s1, mkCard a s2, mkCard y s3, mkCard z s4] =
          2 * 14 ^ 5 + (a : Int) * 14 ^ 4 + (z : Int) * 14 ^ 3 + (y : Int) * 14 ^ 2 +
            (x : Int) * 14) ∧
    (x < y → y < a → a < z → s2 ≠ s3 →
      ResolveCategory [mkCard x s0, mkCard y s1, mkCard a s2, mkCard a s3, mkCard z s4] =
          HandRank.Pair ∧
        EvaluateHand [mkCard x s0, mkCard y s1, mkCard a s2, mkCard a s3, mkCard z s4] =
          2 * 14 ^ 5 + (a : Int) * 14 ^ 4 + (z : Int) * 14 ^ 3 + (y : Int) * 14 ^ 2 +
            (x : Int) * 14) ∧
    (x < y → y < z → z < a → s3 ≠ s4 →
      ResolveCategory [mkCard x s0, mkCard y s1, mkCard z s2, mkCard a s3, mkCard a s4] =
          HandRank.Pair ∧
        EvaluateHand [mkCard x s0, mkCard y s1, mkCard z s2, mkCard a s3, mkCard a s4] =
          2 * 14 ^ 5 + (a : Int) * 14 ^ 4 + (z : Int) * 14 ^ 3 + (y : Int) * 14 ^ 2 +
            (x : Int) * 14) := by
  refine ⟨fun o1 o2 o3 hs => ?_, fun o1 o2 o3 hs => ?_,
    fun o1 o2 o3 hs => ?_, fun o1 o2 o3 hs => ?_⟩
  · have n1 : a ≠ x := by omega
    have n2 : x ≠ y := by omega
    have n3 : y ≠ z := by omega
    have n4 : a ≠ y := by omega
    have n5 : a ≠ z := by omega
    have hst : IsStraight [mkCard a s0, mkCard a s1, mkCard x s2, mkCard y s3, mkCard z s4] =
        false := by
      simp only [IsStraight, decide_eq_false_iff_not, rankAt_zero, rankAt_one, rankAt_two,
        rankAt_three, rankAt_four, mkCard_Rank]
      omega
    have hfl : IsFlush [mkCard a s0, mkCard a s1, mkCard x s2, mkCard y s3, mkCard z s4] =
        false := by
      simp only [IsFlush, decide_eq_false_iff_not, suitAt_zero, suitAt_one, suitAt_two,
        suitAt_three, suitAt_four, mkCard_Suit]
      exact fun hc => hs hc.1
    have hq : IsQuad [mkCard a s0, mkCard a s1, mkCard x s2, mkCard y s3, mkCard z s4] =
        false := by simp [IsQuad, n4, n5]
    have hset : IsSet [mkCard a s0, mkCard a s1, mkCard x s2, mkCard y s3, mkCard z s4] =
        false := by simp [IsSet, setCount, n1, n2, n3]
    have htp : IsTwoPair [mkCard a s0, mkCard a s1, mkCard x s2, mkCard y s3, mkCard z s4] =
        false := by simp [IsTwoPair, twoPairCount_eval, n1, n2, n3]
    have hp : IsPair [mkCard a s0, mkCard a s1, mkCard x s2, mkCard y s3, mkCard z s4] =
        true := by simp [IsPair, pairCount, n1, n2, n3]
    have hsf : IsStraightFlush [mkCard a s0, mkCard a s1, mkCard x s2, mkCard y s3, mkCard z s4] =
        false := by simp [IsStraightFlush, hst]
    have hfh : IsFullHouse [mkCard a s0, mkCard a s1, mkCard x s2, mkCard y s3, mkCard z s4] =
        false := by simp [IsFullHouse, hset]
    refine ⟨(resolveCategory_pair _).2 ⟨hsf, hq, hfh, hfl, hst, hset, htp, hp⟩, ?_⟩
    unfold EvaluateHand
    simp [hsf, hq, hfh, hfl, hst, hset, htp, hp]
  · have n1 : x ≠ a := by omega
    have n2 : a ≠ y := by omega
    have n3 : y ≠ z := by omega
    have n4 : x ≠ y := by omega
    have n5 : a ≠ z := by omega
    have hst : IsStraight [mkCard x s0, mkCard a s1, mkCard a s2, mkCard y s3, mkCard z s4] =
        false := by
      simp only [IsStraight, decide_eq_false_iff_not, rankAt_zero, rankAt_one, rankAt_two,
        rankAt_three, rankAt_four, mkCard_Rank]
      omega
    have hfl : IsFlush [mkCard x s0, mkCard a s1, mkCard a s2, mkCard y s3, mkCard z s4] =
        false := by
      simp only [IsFlush, decide_eq_false_iff_not, suitAt_zero, suitAt_one, suitAt_two,
        suitAt_three, suitAt_four, mkCard_Suit]
      exact fun hc => hs hc.2.1
    have hq : IsQuad [mkCard x s0, mkCard a s1, mkCard a s2, mkCard y s3, mkCard z s4] =
        false := by simp [IsQuad, n4, n5]
    have hset : IsSet [mkCard x s0, mkCard a s1, mkCard a s2, mkCard y s3, mkCard z s4] =
        false := by simp [IsSet, setCount, n1, n2, n3]
    have htp : IsTwoPair [mkCard x s0, mkCard a s1, mkCard a s2, mkCard y s3, mkCard z s4] =
        false := by simp [IsTwoPair, twoPairCount_eval, n1, n2, n3]
    have hp : IsPair [mkCard x s0, mkCard a s1, mkCard a s2, mkCard y s3, mkCard z s4] =
        true := by simp [IsPair, pairCount, n1, n2, n3]
    have hsf : IsStraightFlush [mkCard x s0, mkCard a s1, mkCard a s2, mkCard y s3, mkCard z s4] =
        false := by simp [IsStraightFlush, hst]
    have hfh : IsFullHouse [mkCard x s0, mkCard a s1, mkCard a s2, mkCard y s3, mkCard z s4] =
        false := by simp [IsFullHouse, hset]
    refine ⟨(resolveCategory_pair _).2 ⟨hsf, hq, hfh, hfl, hst, hset, htp, hp⟩, ?_⟩
    unfold EvaluateHand
    simp [hsf, hq, hfh, hfl, hst, hset, htp, hp, n1]
  · have n1 : x ≠ y := by omega
    have n2 : y ≠ a := by omega
    have n3 : a ≠ z := by omega
    have n4 : x ≠ a := by omega
    have n5 : y ≠ z := by omega
    have hst : IsStraight [mkCard x s0, mkCard y s1, mkCard a s2, mkCard a s3, mkCard z s4] =
        false := by
      simp only [IsStraight, decide_eq_false_iff_not, rankAt_zero, rankAt_one, rankAt_two,
        rankAt_three, rankAt_four, mkCard_Rank]
      omega
    have hfl : IsFlush [mkCard x s0, mkCard y s1, mkCard a s2, mkCard a s3, mkCard z s4] =
        false := by
      simp only [IsFlush, decide_eq_false_iff_not, suitAt_zero, suitAt_one, suitAt_two,
        suitAt_three, suitAt_four, mkCard_Suit]
      exact fun hc => hs hc.2.2.1
    have hq : IsQuad [mkCard x s0, mkCard y s1, mkCard a s2, mkCard a s3, mkCard z s4] =
        false := by simp [IsQuad, n4, n5]
    have hset : IsSet [mkCard x s0, mkCard y s1, mkCard a s2, mkCard a s3, mkCard z s4] =
        false := by simp [IsSet, setCount, n1, n2, n3]
    have htp : IsTwoPair [mkCard x s0, mkCard y s1, mkCard a s2, mkCard a s3, mkCard z s4] =
        false := by simp [IsTwoPair, twoPairCount_eval, n1, n2, n3]
    have hp : IsPair [mkCard x s0, mkCard y s1, mkCard a s2, mkCard a s3, mkCard z s4] =
        true := by simp [IsPair, pairCount, n1, n2, n3]
    have hsf : IsStraightFlush [mkCard x s0, mkCard y s1, mkCard a s2, mkCard a s3, mkCard z s4] =
        false := by simp [IsStraightFlush, hst]
    have hfh : IsFullHouse [mkCard x s0, mkCard y s1, mkCard a s2, mkCard a s3, mkCard z s4] =
        false := by simp [IsFullHouse, hset]
    refine ⟨(resolveCategory_pair _).2 ⟨hsf, hq, hfh, hfl, hst, hset, htp, hp⟩, ?_⟩
    unfold EvaluateHand
    simp [hsf, hq, hfh, hfl, hst, hset, htp, hp, n1, n2]
  · have n1 : x ≠ y := by omega
    have n2 : y ≠ z := by omega
    have n3 : z ≠ a := by omega
    have n4 : x ≠ a := by omega
    have n5 : y ≠ a := by omega
    have hst : IsStraight [mkCard x s0, mkCard y s1, mkCard z s2, mkCard a s3, mkCard a s4] =
        false := by
      simp only [IsStraight, decide_eq_false_iff_not, rankAt_zero, rankAt_one, rankAt_two,
        rankAt_three, rankAt_four, mkCard_Rank]
      omega
    have hfl : IsFlush [mkCard x s0, mkCard y s1, mkCard z s2, mkCard a s3, mkCard a s4] =
        false := by
      simp only [IsFlush, decide_eq_false_iff_not, suitAt_zero, suitAt_one, suitAt_two,
        suitAt_three, suitAt_four, mkCard_Suit]
      exact fun hc => hs hc.2.2.2
    have hq : IsQuad [mkCard x s0, mkCard y s1, mkCard z s2, mkCard a s3, mkCard a s4] =
        false := by simp [IsQuad, n4, n5]
    have hset : IsSet [mkCard x s0, mkCard y s1, mkCard z s2, mkCard a s3, mkCard a s4] =
        false := by simp [IsSet, setCount, n1, n2, n3]
    have htp : IsTwoPair [mkCard x s0, mkCard y s1, mkCard z s2, mkCard a s3, mkCard a s4] =
        false := by simp [IsTwoPair, twoPairCount_eval, n1, n2, n3]
    have hp : IsPair [mkCard x s0, mkCard y s1, mkCard z s2, mkCard a s3, mkCard a s4] =
        true := by simp [IsPair, pairCount, n1, n2, n3]
    have hsf : IsStraightFlush [mkCard x s0, mkCard y s1, mkCard z s2, mkCard a s3, mkCard a s4] =
        false := by simp [IsStraightFlush, hst]
    have hfh : IsFullHouse [mkCard x s0, mkCard y s1, mkCard z s2, mkCard a s3, mkCard a s4] =
        false := by simp [IsFullHouse, hset]
    refine ⟨(resolveCategory_pair _).2 ⟨hsf, hq, hfh, hfl, hst, hset, htp, hp⟩, ?_⟩
    unfold EvaluateHand
    simp [hsf, hq, hfh, hfl, hst, hset, htp, hp, n1, n2, n3]

/-- C6 witness: the layout statement applied to the pair of 5s in each
of the four positions, with kickers from 7, 9, 11. -/
theorem claim_C6_witness :
    EvaluateHand [mkCard 5 1, mkCard 5 2, mkCard 7 1, mkCard 9 2, mkCard 11 3] =
      2 * 14 ^ 5 + (5 : Int) * 14 ^ 4 + (11 : Int) * 14 ^ 3 + (9 : Int) * 14 ^ 2 +
        (7 : Int) * 14 ∧
    EvaluateHand [mkCard 2 1, mkCard 5 2, mkCard 5 3, mkCard 9 2, mkCard 11 3] =
      2 * 14 ^ 5 + (5 : Int) * 14 ^ 4 + (11 : Int) * 14 ^ 3 + (9 : Int) * 14 ^ 2 +
        (2 : Int) * 14 ∧
    EvaluateHand [mkCard 2 1, mkCard 3 2, mkCard 5 3, mkCard 5 4, mkCard 11 3] =
      2 * 14 ^ 5 + (5 : Int) * 14 ^ 4 + (11 : Int) * 14 ^ 3 + (3 : Int) * 14 ^ 2 +
        (2 : Int) * 14 ∧
    EvaluateHand [mkCard 2 1, mkCard 3 2, mkCard 4 3, mkCard 5 4, mkCard 5 1] =
      2 * 14 ^ 5 + (5 : Int) * 14 ^ 4 + (4 : Int) * 14 ^ 3 + (3 : Int) * 14 ^ 2 +
        (2 : Int) * 14 :=
  ⟨((claim_C6_pair_layout_scores 5 7 9 11 1 2 1 2 3).1 (by decide) (by decide) (by decide)
      (by decide)).2,
   ((claim_C6_pair_layout_scores 5 2 9 11 1 2 3 2 3).2.1 (by decide) (by decide) (by decide)
      (by decide)).2,
   ((claim_C6_pair_layout_scores 5 2 3 11 1 2 3 4 3).2.2.1 (by decide) (by decide) (by decide)
      (by decide)).2,
   ((claim_C6_pair_layout_scores 5 2 3 4 1 2 3 4 1).2.2.2 (by decide) (by decide) (by decide)
      (by decide)).2⟩

/-- C7: on a rank-sorted 5-card hand, IsPair answers true exactly when
the rank multiset carries one pair and three singletons (one rank of
count 2, every other rank of count at most 1, hence one adjacent equal
pair that is part of no longer run); in particular IsPair answers false
whenever IsSet, IsQuad, IsTwoPair or IsFullHouse answers true. -/
theorem claim_C7_isPair_signature (c0 c1 c2 c3 c4 : Card)
    (s01 : c0.Rank ≤ c1.Rank) (s12 : c1.Rank ≤ c2.Rank)
    (s23 : c2.Rank ≤ c3.Rank) (s34 : c3.Rank ≤ c4.Rank) :
    (IsPair [c0, c1, c2, c3, c4] = true ↔ OnePairHand [c0, c1, c2, c3, c4]) ∧
    (IsSet [c0, c1, c2, c3, c4] = true → IsPair [c0, c1, c2, c3, c4] = false) ∧
    (IsQuad [c0, c1, c2, c3, c4] = true → IsPair [c0, c1, c2, c3, c4] = false) ∧
    (IsTwoPair [c0, c1, c2, c3, c4] = true → IsPair [c0, c1, c2, c3, c4] = false) ∧
    (IsFullHouse [c0, c1, c2, c3, c4] = true → IsPair [c0, c1, c2, c3, c4] = false) := by
  have hiff : IsPair [c0, c1, c2, c3, c4] = true ↔ pairCount [c0, c1, c2, c3, c4] = 1 := by
    simp [IsPair]
  have hset_imp : IsSet [c0, c1, c2, c3, c4] = true → IsPair [c0, c1, c2, c3, c4] = false := by
    intro h
    simp only [IsSet, decide_eq_true_eq] at h
    simp only [IsPair, decide_eq_false_iff_not]
    by_cases e01 : c0.Rank = c1.Rank <;> by_cases e12 : c1.Rank = c2.Rank <;>
      by_cases e23 : c2.Rank = c3.Rank <;> by_cases e34 : c3.Rank = c4.Rank <;>
      simp_all [setCount, pairCount]
  refine ⟨hiff.trans ⟨onePair_of_pairCount c0 c1 c2 c3 c4 s01 s12 s23 s34,
    pairCount_of_onePair c0 c1 c2 c3 c4 s01 s12 s23 s34⟩, hset_imp, ?_, ?_, ?_⟩
  · intro h
    simp only [IsQuad, decide_eq_true_eq] at h
    simp only [IsPair, decide_eq_false_iff_not]
    by_cases e01 : c0.Rank = c1.Rank <;> by_cases e12 : c1.Rank = c2.Rank <;>
      by_cases e23 : c2.Rank = c3.Rank <;> by_cases e34 : c3.Rank = c4.Rank <;>
      simp_all [pairCount] <;> omega
  · intro h
    simp only [IsTwoPair, decide_eq_true_eq] at h
    rw [twoPairCount_eval] at h
    simp only [IsPair, decide_eq_false_iff_not]
    by_cases e01 : c0.Rank = c1.Rank <;> by_cases e12 : c1.Rank = c2.Rank <;>
      by_cases e23 : c2.Rank = c3.Rank <;> by_cases e34 : c3.Rank = c4.Rank <;>
      simp_all [pairCount]
  · intro h
    simp only [IsFullHouse, Bool.and_eq_true] at h
    exact hset_imp h.1

/-- C7 witness: the signature statement applied to the sorted one-pair
hand 2-2-5-7-9, whose pair is the rank 2. -/
theorem claim_C7_witness :
    IsPair [mkCard 2 1, mkCard 2 2, mkCard 5 1, mkCard 7 3, mkCard 9 4] = true ∧
    OnePairHand [mkCard 2 1, mkCard 2 2, mkCard 5 1, mkCard 7 3, mkCard 9 4] :=
  ⟨by decide,
   (claim_C7_isPair_signature (mkCard 2 1) (mkCard 2 2) (mkCard 5 1) (mkCard 7 3) (mkCard 9 4)
      (by decide) (by decide) (by decide) (by decide)).1.1 (by decide)⟩

/-- C8: for 5-card hands, sorting then classifying and scoring is
invariant under any permutation of the input cards: the resolved
category and the EvaluateHand score depend only on the multiset of
cards.  Sorting pins the rank sequence of the sorted hand, and the only
suit-sensitive predicate, IsFlush, is a multiset property on 5-card
hands. -/
theorem claim_C8_perm_invariance (l1 l2 : List Card) (hp : l1.Perm l2) (hl : l1.length = 5) :
    ResolveCategory (SortHand l1) = ResolveCategory (SortHand l2) ∧
    EvaluateHand (SortHand l1) = EvaluateHand (SortHand l2) := by
  have hperm : (SortHand l1).Perm (SortHand l2) :=
    (sortHand_perm l1).trans (hp.trans (sortHand_perm l2).symm)
  have hlen1 : (SortHand l1).length = 5 := (sortHand_perm l1).length_eq.trans hl
  exact eval_congr _ _ (sortHand_map_rank_eq l1 l2 hp) (isFlush_perm _ _ hperm hlen1)

/-- C8 witness: the permutation statement applied to an all-Hearts hand
and the transposition of its first two cards. -/
theorem claim_C8_witness :
    ResolveCategory (SortHand permHandA) = ResolveCategory (SortHand permHandB) ∧
    EvaluateHand (SortHand permHandA) = EvaluateHand (SortHand permHandB) :=
  claim_C8_perm_invariance permHandA permHandB
    (List.Perm.swap (mkCard 2 1) (mkCard 9 1) [mkCard 11 1, mkCard 5 1, mkCard 7 1]) rfl

/-- C9: there is no hand-size validation anywhere in the code.  Handed
six cards, EvaluateHand does not signal anything resembling an
InvalidHandSize error: it sorts all six cards, reads positions 0..4 and
returns an ordinary HighCard score. -/
theorem claim_C9_no_size_check :
    sixCardHand.length ≠ 5 ∧
    EvaluateHand (SortHand sixCardHand) =
      1 * 14 ^ 5 + 11 * 14 ^ 4 + 9 * 14 ^ 3 + 7 * 14 ^ 2 + 5 * 14 + 2 := by decide
